import Mathlib

/-!
# Verification of the reactivity / rendering core of `vue-reading`

Shallow embedding, in Lean 4, of the parts of the repository that the
claims C1–C10 are about:

* `src/core/observer/dep.js` — dependency nodes (`Dep`), the global
  active-watcher pointer `Dep.target` with its explicit stack
  (`pushTarget` / `popTarget`), and `Dep.notify`.
* `src/core/observer/watcher.js` — `Watcher` construction, `get`,
  `addDep`, `cleanupDeps`, `teardown`.
* `src/unnamed/part_002` — the async component resolver
  (`resolveAsyncComponent` and its once-wrapped `resolve` callback).
* `src/unnamed/part_003` — `componentVNodeHooks.insert`.
* `src/unnamed/part_000` — the transition controller's `enter` / `leave`
  entry points and their completion callbacks (`_enterCb` / `_leaveCb`).
* `src/platforms/web/runtime/components/transition-group.js` — the
  child-filtering loop of transition-group's `render`.

JavaScript objects are modelled as Lean structures, in-place mutation as
explicit state passing, and the dev/production build distinction
(`process.env.NODE_ENV !== 'production'`) as an explicit boolean flag.
Watchers, dependency nodes, components and owner instances are
identified by their numeric ids (each of these carries a monotonically
increasing integer id in the source).
-/

namespace VueReading

/-! ## `Dep.target` and the target stack (`src/core/observer/dep.js`)

The source keeps a module-level array `targetStack` and a static field
`Dep.target`.  `pushTarget(target)` pushes onto the end of the array and
sets `Dep.target`; `popTarget()` pops the last element and resets
`Dep.target` to the new last element (JS yields `undefined` on an empty
array, which — like a pushed `undefined`/`null` — is modelled as
`none`).  We model the array with its *end* as the head of a Lean list,
so that JS `push`/`pop`/last-element become `cons`/`tail`/`head?`. -/

/-- The module-level state of `dep.js`: the explicit `targetStack` array
and the global pointer `Dep.target`.  A stack entry is `Option Nat`
(a watcher id, or `none` for a pushed `undefined`). -/
structure TargetState where
  targetStack : List (Option Nat)
  target : Option Nat
  deriving DecidableEq, Repr

/-- `pushTarget(target)`: `targetStack.push(target); Dep.target = target`. -/
def pushTarget (t : Option Nat) (s : TargetState) : TargetState :=
  { targetStack := t :: s.targetStack, target := t }

/-- `popTarget()`: `targetStack.pop(); Dep.target =
targetStack[targetStack.length - 1]` (undefined, i.e. `none`, when the
stack has emptied). -/
def popTarget (s : TargetState) : TargetState :=
  let rest := s.targetStack.tail
  { targetStack := rest, target := (rest.head?).getD none }

/-- Initial module state: `Dep.target = null`, empty `targetStack`. -/
def initTargetState : TargetState := { targetStack := [], target := none }

/-- States of the `dep.js` module reachable from the initial state by
`pushTarget` / `popTarget` calls — the only code that touches this
state. -/
inductive TargetReachable : TargetState → Prop
  | init : TargetReachable initTargetState
  | push (t : Option Nat) {s : TargetState} (h : TargetReachable s) :
      TargetReachable (pushTarget t s)
  | pop {s : TargetState} (h : TargetReachable s) :
      TargetReachable (popTarget s)

/-- Invariant of the module: `Dep.target` is always the last element of
`targetStack` (or `none` when the stack is empty). -/
theorem targetReachable_invariant {s : TargetState} (h : TargetReachable s) :
    s.target = (s.targetStack.head?).getD none := by
  induction h with
  | init => rfl
  | push t h ih => rfl
  | pop h ih => rfl

/-! ## `Dep.notify` (`src/core/observer/dep.js`)

```js
notify () {
  const subs = this.subs.slice()
  if (process.env.NODE_ENV !== 'production' && !config.async) {
    subs.sort((a, b) => a.id - b.id)
  }
  for (let i = 0, l = subs.length; i < l; i++) {
    subs[i].update()
  }
}
```

`subs.slice()` snapshots the live subscriber array; each `update()` call
may arbitrarily mutate the dep's live `subs` (a watcher's `update` can
queue/run code that adds or removes subscribers).  We model the
subscriber as a structure carrying its id, the mutation performed by
each `update()` as a parameter `effect`, and `notify` as a loop over the
snapshot that threads the live subscriber list through `effect`,
returning the invocation order together with the final live list. -/

/-- A subscriber as `notify` sees it: a watcher identified by its id. -/
structure DWatcher where
  id : Nat
  deriving DecidableEq, Repr

/-- The comparator `(a, b) => a.id - b.id`: ascending watcher-id order. -/
def depIdLe (a b : DWatcher) : Prop := a.id ≤ b.id

instance : DecidableRel depIdLe := fun a b => Nat.decLe a.id b.id

instance : IsTotal DWatcher depIdLe := ⟨fun a b => Nat.le_total a.id b.id⟩

instance : IsTrans DWatcher depIdLe := ⟨fun _ _ _ => Nat.le_trans⟩

/-- The snapshot `notify` iterates over: `this.subs.slice()`, sorted by
ascending watcher id exactly when the build is non-production and
`config.async` is false. -/
def notifySnapshot (production asyncCfg : Bool) (subs : List DWatcher) :
    List DWatcher :=
  if production = false ∧ asyncCfg = false then
    List.insertionSort depIdLe subs
  else subs

/-- The `for` loop of `notify`: invoke `update()` on each element of the
snapshot in order; each invocation may mutate the live subscriber list
(`effect w live`).  Returns (invocation order, final live list). -/
def notifyLoop (effect : DWatcher → List DWatcher → List DWatcher) :
    List DWatcher → List DWatcher → List DWatcher × List DWatcher
  | [], live => ([], live)
  | w :: rest, live =>
    let r := notifyLoop effect rest (effect w live)
    (w :: r.1, r.2)

/-- `Dep.notify()`: snapshot (possibly sorted), then the update loop.
`production` models `process.env.NODE_ENV === 'production'`, `asyncCfg`
models `config.async`. -/
def notify (production asyncCfg : Bool) (subs : List DWatcher)
    (effect : DWatcher → List DWatcher → List DWatcher) :
    List DWatcher × List DWatcher :=
  notifyLoop effect (notifySnapshot production asyncCfg subs) subs

/-- The invocation order produced by `notifyLoop` is the snapshot it was
given, whatever the live list and the mutation effect. -/
theorem notifyLoop_fst (effect : DWatcher → List DWatcher → List DWatcher) :
    ∀ snap live, (notifyLoop effect snap live).1 = snap := by
  intro snap
  induction snap with
  | nil => intro live; rfl
  | cons w rest ih =>
    intro live
    simp [notifyLoop, ih]

/-! ## Dependency nodes and the `Watcher` (`src/core/observer/watcher.js`)

A `Dep` is identified by its integer id and owns an array `subs` of
subscribed watchers (`addSub` pushes, `removeSub` removes the first
occurrence via the `remove` array util).  A `Watcher` holds two
dependency collections — current (`deps`/`depIds`) and pending-next
(`newDeps`/`newDepIds`) — reconciled by `cleanupDeps` at the end of
every evaluation.

`depIds`/`newDepIds` are `SimpleSet`s in the source.  They are
initialised in the constructor with `new Set()` (the `_Set` util), but
`cleanupDeps` re-initialises `newDepIds` with `new set([])`, where
lowercase `set` is `import { set } from '.'` — the reactive
state-mutation helper `set(target, key, val)` exported by
`src/core/observer/index.js`, a plain function, *not* the `Set`
constructor.  `new`-constructing a plain function yields an ordinary
object whose prototype chain has no `has`/`add` methods, so any later
`.has(...)` call on it throws a `TypeError`.  The model distinguishes
the two shapes. -/

/-- A JavaScript exception, as far as the claims need to distinguish:
a `TypeError` (calling `.has` on a non-`Set`), or an exception thrown
by a watcher's evaluator. -/
inductive JsErr where
  | typeError
  | getterThrown
  deriving DecidableEq, Repr

/-- The value stored in a watcher's `depIds` / `newDepIds` slot: either
a genuine `Set` of dep ids, or the method-less object produced by
`cleanupDeps`'s `new set([])` (see the section comment — `set` is the
reactive setter from `src/core/observer/index.js`, not under `src/`,
whose `new`-construction yields an object without `Set` methods). -/
inductive SimpleSetVal where
  | realSet (elems : List Nat)
  | setHelperObject
  deriving DecidableEq, Repr

instance {e a : Type} [DecidableEq e] [DecidableEq a] :
    DecidableEq (Except e a) := fun x y =>
  match x, y with
  | .ok u, .ok v =>
    if h : u = v then .isTrue (by rw [h]) else .isFalse (by simp [h])
  | .ok _, .error _ => .isFalse (by simp)
  | .error _, .ok _ => .isFalse (by simp)
  | .error u, .error v =>
    if h : u = v then .isTrue (by rw [h]) else .isFalse (by simp [h])

/-- `.has(id)` on a `depIds`-slot value: set membership on a real `Set`,
a thrown `TypeError` on the `new set([])` object. -/
def SimpleSetVal.has : SimpleSetVal → Nat → Except JsErr Bool
  | .realSet es, n => .ok (es.contains n)
  | .setHelperObject, _ => .error .typeError

/-- `.add(id)` on a `depIds`-slot value (a JS `Set` ignores an element
already present). -/
def SimpleSetVal.add : SimpleSetVal → Nat → Except JsErr SimpleSetVal
  | .realSet es, n => .ok (.realSet (if es.contains n then es else es ++ [n]))
  | .setHelperObject, _ => .error .typeError

/-- A dependency node: its id and its `subs` array (watcher ids, in
insertion order). -/
structure DepNode where
  id : Nat
  subs : List Nat
  deriving DecidableEq, Repr

/-- The collection of live dependency nodes the watcher under study
interacts with. -/
def DepWorld := List DepNode
  deriving DecidableEq, Repr

/-- `remove(arr, item)` from `core/util`: `splice` out the first
occurrence of `item`, leave the array unchanged when absent. -/
def removeFirst : List Nat → Nat → List Nat
  | [], _ => []
  | x :: xs, y => if x = y then xs else x :: removeFirst xs y

/-- `dep.addSub(watcherId)`: `this.subs.push(sub)` on the node with the
given id. -/
def addSub (depId watcherId : Nat) (world : DepWorld) : DepWorld :=
  world.map fun d => if d.id = depId then { d with subs := d.subs ++ [watcherId] } else d

/-- `dep.removeSub(watcherId)`: `remove(this.subs, sub)` on the node
with the given id. -/
def removeSub (depId watcherId : Nat) (world : DepWorld) : DepWorld :=
  world.map fun d => if d.id = depId then { d with subs := removeFirst d.subs watcherId } else d

/-- The getter a watcher ends up with (`watcher.js` lines 85–102):
either the function passed as `expOrFn`, or the accessor returned by
`parsePath`, or the `noop` fallback when `parsePath` fails.  A JS
function getter is characterised, for this model, by the dependency
nodes its evaluation touches (each touch is `dep.depend()` →
`Dep.target.addDep(dep)`) and by its outcome — a returned value
(`none` = `undefined`) or a thrown exception. -/
inductive EvalOutcome where
  | retv (v : Option Nat)
  | thrown
  deriving DecidableEq, Repr

/-- See `EvalOutcome`. -/
inductive GetterSpec where
  | fnG (touches : List Nat) (outcome : EvalOutcome)
  | pathG (segs : List String)
  | noopG
  deriving DecidableEq, Repr

/-- Option flags of the `Watcher` constructor (`before` is not involved
in any claim). -/
structure WOptions where
  deep : Bool
  user : Bool
  lazy : Bool
  sync : Bool
  deriving DecidableEq, Repr

/-- The mutable fields of a `Watcher` instance that the claims touch.
Field names follow the source. -/
structure WatcherState where
  id : Nat
  deep : Bool
  user : Bool
  lazy : Bool
  sync : Bool
  active : Bool
  deps : List Nat
  newDeps : List Nat
  depIds : SimpleSetVal
  newDepIds : SimpleSetVal
  getter : GetterSpec
  value : Option Nat
  deriving DecidableEq, Repr

/-- The component instance fields `teardown` and the constructor use. -/
structure VmState where
  watcherList : List Nat
  isBeingDestroyed : Bool
  deriving DecidableEq, Repr

/-- `Watcher.prototype.addDep(dep)`:

```js
const id = dep.id
if (!this.newDepIds.has(id)) {
  this.newDepIds.add(id)
  this.newDeps.push(dep)
  if (!this.depIds.has(id)) { dep.addSub(this) }
}
```
-/
def Watcher.addDep (w : WatcherState) (world : DepWorld) (depId : Nat) :
    Except JsErr (WatcherState × DepWorld) := do
  let b ← w.newDepIds.has depId
  if b then
    return (w, world)
  else
    let s1 ← w.newDepIds.add depId
    let w1 := { w with newDepIds := s1, newDeps := w.newDeps ++ [depId] }
    let b2 ← w1.depIds.has depId
    if b2 then
      return (w1, world)
    else
      return (w1, addSub depId w1.id world)

/-- The dependency registrations performed while the evaluator runs:
each touched dep node calls `dep.depend()`, which (with this watcher as
`Dep.target`) calls `watcher.addDep(dep)`.  Stops at the first thrown
exception, reporting the state at that point. -/
def registerTouches : WatcherState → DepWorld → List Nat →
    WatcherState × DepWorld × Option JsErr
  | w, world, [] => (w, world, none)
  | w, world, d :: ds =>
    match Watcher.addDep w world d with
    | .ok (w2, world2) => registerTouches w2 world2 ds
    | .error e => (w, world, some e)

/-- `Watcher.prototype.cleanupDeps()`:

```js
let i = this.deps.length
while (i--) {
  const dep = this.deps[i]
  if (!this.newDepIds.has(dep.id)) { dep.removeSub(this) }
}
this.depIds = this.newDepIds
this.newDepIds = new set([])
this.deps = this.newDeps
this.newDeps = new Array()
```

The `while` loop walks `deps` from its last element to its first; a
thrown `TypeError` (broken `newDepIds`) aborts the method, leaving the
fields unswapped.  `new Array()` is an empty array; `new set([])` is the
method-less object (see section comment). -/
def Watcher.cleanupDeps (w : WatcherState) (world : DepWorld) :
    WatcherState × DepWorld × Option JsErr :=
  match go w.deps.reverse world with
  | (world2, some e) => (w, world2, some e)
  | (world2, none) =>
    ({ w with depIds := w.newDepIds,
              newDepIds := .setHelperObject,
              deps := w.newDeps,
              newDeps := [] }, world2, none)
where
  go : List Nat → DepWorld → DepWorld × Option JsErr
    | [], world => (world, none)
    | d :: ds, world =>
      match w.newDepIds.has d with
      | .error e => (world, some e)
      | .ok b => if b then go ds world else go ds (removeSub d w.id world)

/-- Everything `Watcher.prototype.get()` produces: the evaluated value
(`none` = `undefined`), the watcher and dep-node state afterwards, how
many exceptions were routed to `handleError` (user watchers), and the
exception propagating out of `get`, if any. -/
structure GetResult where
  value : Option Nat
  watcher : WatcherState
  world : DepWorld
  handledErrors : Nat
  thrown : Option JsErr
  deriving DecidableEq, Repr

/-- `Watcher.prototype.get()`, for an evaluation whose reads touch
`touches` (in order) and whose evaluator finishes with `outcome`:

```js
pushTarget(this)
let value
try {
  value = this.getter.call(vm, vm)
} catch (e) {
  if (this.user) { handleError(e, ...) } else { throw e }
} finally {
  if (this.deep) { traverse(value) }
  popTarget()
  this.cleanupDeps()
}
return value
```

`pushTarget`/`popTarget` bracket the evaluation (modelled separately —
`pushTarget`/`popTarget` above); `traverse` only reads.  An exception
raised inside the `try` (a dependency-registration `TypeError` or the
evaluator's own throw) is swallowed for user watchers (routed to
`handleError`) and rethrown otherwise; the `finally` block runs
`cleanupDeps` in every case, and an exception raised *there* replaces
whatever was propagating. -/
def Watcher.get (w : WatcherState) (world : DepWorld) (touches : List Nat)
    (outcome : EvalOutcome) : GetResult :=
  let reg := registerTouches w world touches
  let w1 := reg.1
  let world1 := reg.2.1
  let caught : Option JsErr :=
    match reg.2.2 with
    | some e => some e
    | none => match outcome with
      | .thrown => some .getterThrown
      | .retv _ => none
  let handled : Nat := if caught.isSome ∧ w.user then 1 else 0
  let rethrow : Option JsErr := if w.user then none else caught
  match Watcher.cleanupDeps w1 world1 with
  | (w2, world2, some e2) =>
    { value := none, watcher := w2, world := world2,
      handledErrors := handled, thrown := some e2 }
  | (w2, world2, none) =>
    match rethrow with
    | some e =>
      { value := none, watcher := w2, world := world2,
        handledErrors := handled, thrown := some e }
    | none =>
      let v : Option Nat := match caught, outcome with
        | none, .retv v => v
        | _, _ => none
      { value := v, watcher := w2, world := world2,
        handledErrors := handled, thrown := none }

/-- `Watcher.prototype.teardown()`:

```js
if (this.active) {
  if (!this.vm._isBeingDestroyed) { remove(this.vm._watchers, this) }
  let i = this.deps.length
  while (i--) { this.deps[i].removeSub(this) }
  this.active = false
}
```
-/
def Watcher.teardown (w : WatcherState) (vm : VmState) (world : DepWorld) :
    WatcherState × VmState × DepWorld :=
  if w.active then
    let vm2 :=
      if vm.isBeingDestroyed then vm
      else { vm with watcherList := removeFirst vm.watcherList w.id }
    let world2 := w.deps.reverse.foldl (fun wd d => removeSub d w.id wd) world
    ({ w with active := false }, vm2, world2)
  else
    (w, vm, world)

/-- A character allowed in a "simple dot-delimited path". -/
def pathChar (c : Char) : Bool :=
  c.isAlphanum || c = '_' || c = '$' || c = '.'

/-- Modelled from the spec: `parsePath` lives in `core/util` (not under
`src/`); per the spec, a watcher expression string either parses "into a
simple accessor path" — here, a dot-delimited sequence of plain
identifier characters, for which an accessor over the segments is
returned — or cannot be so parsed, in which case `parsePath` returns
`undefined` (`none`). -/
def parsePath (path : String) : Option (List String) :=
  if path.data.all pathChar then some (path.splitOn ".") else none

/-- What the `Watcher` constructor produces, beyond the instance itself:
the updated vm and dep-node state, the number of `warn` calls, the
number of exceptions routed to `handleError`, and an exception escaping
the constructor, if any. -/
structure ConstructResult where
  watcher : WatcherState
  vm : VmState
  world : DepWorld
  warns : Nat
  handledErrors : Nat
  thrown : Option JsErr
  deriving DecidableEq, Repr

/-- The `Watcher` constructor (`watcher.js` lines 47–102), for a watcher
that will receive id `newId`:

```js
vm._watchers.push(this)
if (options) { this.deep = !!options.deep; ... } else { ... = false }
this.id = ++uid
this.active = true
this.dirty = this.lazy
this.deps = []; this.newDeps = []
this.depIds = new Set(); this.newDepIds = new Set()
if (typeof expOrFn === 'function') {
  this.getter = expOrFn
} else {
  this.getter = parsePath(expOrFn)
  if (!this.getter) {
    this.getter = noop
    process.env.NODE_ENV !== 'production' && warn('Failed watching path: ...')
  }
}
this.value = this.lazy ? undefined : this.get()
```

`expOrFn` is either a function getter or an expression string.  The
evaluation behaviour of a path accessor against the vm's reactive data
(which dep nodes a read of `vm.a.b` touches, and the value found there)
belongs to the reactivity substrate — an external collaborator per the
spec — and is supplied as `pathEval`; `noop` touches nothing and
returns `undefined`.  `dev` models a non-production build. -/
def mkWatcher (dev : Bool) (vm : VmState) (expOrFn : Sum GetterSpec String)
    (opts : Option WOptions) (newId : Nat) (world : DepWorld)
    (pathEval : List String → List Nat × Option Nat) : ConstructResult :=
  let vm1 := { vm with watcherList := vm.watcherList ++ [newId] }
  let o := opts.getD { deep := false, user := false, lazy := false, sync := false }
  let gw : GetterSpec × Nat :=
    match expOrFn with
    | .inl g => (g, 0)
    | .inr s =>
      match parsePath s with
      | some segs => (.pathG segs, 0)
      | none => (.noopG, if dev then 1 else 0)
  let w0 : WatcherState :=
    { id := newId, deep := o.deep, user := o.user, lazy := o.lazy, sync := o.sync,
      active := true, deps := [], newDeps := [],
      depIds := .realSet [], newDepIds := .realSet [], getter := gw.1,
      value := none }
  if o.lazy then
    { watcher := w0, vm := vm1, world := world, warns := gw.2,
      handledErrors := 0, thrown := none }
  else
    let run : List Nat × EvalOutcome :=
      match gw.1 with
      | .fnG touches outcome => (touches, outcome)
      | .pathG segs => ((pathEval segs).1, .retv (pathEval segs).2)
      | .noopG => ([], .retv none)
    let r := Watcher.get w0 world run.1 run.2
    { watcher := { r.watcher with value := r.value }, vm := vm1, world := r.world,
      warns := gw.2, handledErrors := r.handledErrors, thrown := r.thrown }

/-! ## Claim theorems for the observer layer -/

/-- C9: `pushTarget` and `popTarget` are stack-disciplined and
round-trip — from any module state reachable by push/pop calls (with
any current value `t` of `Dep.target`), `pushTarget w` followed by
`popTarget` restores the entire module state, in particular
`Dep.target` to `t`; so a nested (inner) watcher evaluation leaves the
outer watcher as the active target after it completes. -/
theorem C9_pushTarget_popTarget_roundtrip (s : TargetState)
    (h : TargetReachable s) (w : Option Nat) :
    popTarget (pushTarget w s) = s := by
  have hinv := targetReachable_invariant h
  cases s with
  | mk stack tgt =>
    simp only [pushTarget, popTarget, List.tail_cons]
    simp only at hinv
    rw [← hinv]

/-- Witness for C9 at a concrete reachable state: with watcher 1 active
(pushed), pushing watcher 2 and popping restores watcher 1 as
`Dep.target`. -/
theorem C9_pushTarget_popTarget_roundtrip_witness :
    TargetReachable (pushTarget (some 1) initTargetState) ∧
    popTarget (pushTarget (some 2) (pushTarget (some 1) initTargetState)) =
      pushTarget (some 1) initTargetState :=
  ⟨TargetReachable.push (some 1) TargetReachable.init,
   C9_pushTarget_popTarget_roundtrip (pushTarget (some 1) initTargetState)
     (TargetReachable.push (some 1) TargetReachable.init) (some 2)⟩

/-- C4 counterexample: the claim asserts that *whenever the scheduler is
not in async mode* the snapshot is sorted ascending by watcher id — but
in a production build (`process.env.NODE_ENV === 'production'`) with
`config.async = false`, `notify` skips the sort: subscribers `[id 2,
id 1]` are invoked in insertion order `[2, 1]`, which is not ascending. -/
theorem C4_counterexample_production_unsorted :
    (notify true false [⟨2⟩, ⟨1⟩] (fun _ live => live)).1 = [⟨2⟩, ⟨1⟩] ∧
    ¬ List.Sorted depIdLe (notify true false [⟨2⟩, ⟨1⟩] (fun _ live => live)).1 := by
  constructor
  · rfl
  · intro h
    have h2 : List.Sorted depIdLe [⟨2⟩, ⟨1⟩] := h
    rcases List.pairwise_cons.mp h2 with ⟨hrel, -⟩
    have := hrel ⟨1⟩ (by simp)
    simp [depIdLe] at this

/-- C4 (amended): `notify` iterates over a snapshot taken before any
invocation, so subscriber-list mutation during iteration does not
affect the sequence notified (independence from `effect`, and the
sequence is a permutation of the snapshot source); the snapshot is
sorted so that `update()` runs in ascending watcher-id order whenever
the build is non-production *and* the scheduler is not in async mode;
otherwise (async mode, or a production build) subscribers are invoked
in insertion order. -/
theorem C4_notify_snapshot_order (production asyncCfg : Bool)
    (subs : List DWatcher)
    (effect effect2 : DWatcher → List DWatcher → List DWatcher) :
    (notify production asyncCfg subs effect).1 =
      (notify production asyncCfg subs effect2).1 ∧
    (notify production asyncCfg subs effect).1.Perm subs ∧
    (production = false ∧ asyncCfg = false →
      List.Sorted depIdLe (notify production asyncCfg subs effect).1) ∧
    (¬(production = false ∧ asyncCfg = false) →
      (notify production asyncCfg subs effect).1 = subs) := by
  unfold notify
  rw [notifyLoop_fst, notifyLoop_fst]
  refine ⟨rfl, ?_, ?_, ?_⟩
  · unfold notifySnapshot
    split
    · exact List.perm_insertionSort depIdLe subs
    · exact List.Perm.refl subs
  · intro h
    unfold notifySnapshot
    rw [if_pos h]
    exact List.sorted_insertionSort depIdLe subs
  · intro h
    unfold notifySnapshot
    rw [if_neg h]

/-- Witness for C4 (amended) at concrete inputs: in a dev non-async
build `[id 2, id 1]` is notified sorted; in async mode it is notified
in insertion order. -/
theorem C4_notify_snapshot_order_witness :
    List.Sorted depIdLe (notify false false [⟨2⟩, ⟨1⟩] (fun _ live => live)).1 ∧
    (notify false true [⟨2⟩, ⟨1⟩] (fun _ live => live)).1 = [⟨2⟩, ⟨1⟩] :=
  ⟨(C4_notify_snapshot_order false false [⟨2⟩, ⟨1⟩]
      (fun _ live => live) (fun _ live => live)).2.2.1 ⟨rfl, rfl⟩,
   (C4_notify_snapshot_order false true [⟨2⟩, ⟨1⟩]
      (fun _ live => live) (fun _ live => live)).2.2.2 (by simp)⟩

/-- C8: `teardown()` is idempotent — applying it to its own output
(watcher, vm watcher list, dep-node subscriber lists) changes nothing:
the first call removed the watcher from every dependency node and set
`active` to `false`, so the second call takes the inactive branch and
performs no removals and no side effects. -/
theorem C8_teardown_idempotent (w : WatcherState) (vm : VmState)
    (world : DepWorld) :
    (let r := Watcher.teardown w vm world
     Watcher.teardown r.1 r.2.1 r.2.2) = Watcher.teardown w vm world := by
  by_cases hw : w.active = true
  · simp [Watcher.teardown, hw]
  · simp [Watcher.teardown, hw]

/-- C7: constructing a watcher from an expression string that
`parsePath` cannot parse does not throw: the getter falls back to
`noop`, exactly one warning is reported in development builds (none in
production), and construction completes with `value` evaluated via the
no-op getter (`undefined`) and the watcher active. -/
theorem C7_unparsable_expression_noop (dev : Bool) (vm : VmState) (s : String)
    (newId : Nat) (world : DepWorld)
    (pathEval : List String → List Nat × Option Nat)
    (h : parsePath s = none) :
    (mkWatcher dev vm (.inr s) none newId world pathEval).thrown = none ∧
    (mkWatcher dev vm (.inr s) none newId world pathEval).watcher.getter =
      GetterSpec.noopG ∧
    (mkWatcher dev vm (.inr s) none newId world pathEval).warns =
      (if dev then 1 else 0) ∧
    (mkWatcher dev vm (.inr s) none newId world pathEval).watcher.value = none ∧
    (mkWatcher dev vm (.inr s) none newId world pathEval).watcher.active = true ∧
    (mkWatcher dev vm (.inr s) none newId world pathEval).world = world := by
  simp [mkWatcher, h, Watcher.get, registerTouches, Watcher.cleanupDeps,
    Watcher.cleanupDeps.go]

/-- Witness for C7 at the concrete expression string `"a+b"` (not a
simple dot-delimited path) in a dev build. -/
theorem C7_unparsable_expression_noop_witness :
    parsePath "a+b" = none ∧
    (mkWatcher true ⟨[], false⟩ (.inr "a+b") none 1 [⟨0, []⟩]
        (fun _ => ([], none))).thrown = none ∧
    (mkWatcher true ⟨[], false⟩ (.inr "a+b") none 1 [⟨0, []⟩]
        (fun _ => ([], none))).warns = 1 := by
  have h : parsePath "a+b" = none := by decide
  have r := C7_unparsable_expression_noop true ⟨[], false⟩ "a+b" 1 [⟨0, []⟩]
    (fun _ => ([], none)) h
  exact ⟨h, r.1, by rw [r.2.2.1]; rfl⟩

/-- The dep-node world of the C1 scenario: one observed property, whose
dependency node has id 0 and no subscribers yet. -/
def c1World : DepWorld := [⟨0, []⟩]

/-- The C1 watcher: constructed non-lazy (in a production build, vm not
being destroyed) with a function getter that reads the single observed
property (touching dep node 0) and returns 7. -/
def c1Construct : ConstructResult :=
  mkWatcher false ⟨[], false⟩ (.inl (.fnG [0] (.retv (some 7)))) none 1 c1World
    (fun _ => ([], none))

/-- A second evaluation of the same watcher, touching the same dep node. -/
def c1SecondGet : GetResult :=
  Watcher.get c1Construct.watcher c1Construct.world [0] (.retv (some 7))

/-- C1 (code bug): the first evaluation's reconciliation does run —
dep 0 ends up subscribing the watcher, `newDeps`/`newDepIds` become the
current collections, `newDeps` is reset to an empty list — but the
pending-next id collection is *not* reset to an empty id-set:
`cleanupDeps` assigns `new set([])` (the reactive setter from
`src/core/observer/index.js`, not the `Set` constructor), an object
with no `has` method.  The collections are therefore not reusable: the
next evaluation's very first dependency registration calls
`newDepIds.has` and throws a `TypeError` (which, on this non-user
watcher, propagates out of `get()`), recording nothing. -/
theorem C1_cleanupDeps_pending_set_broken :
    c1Construct.thrown = none ∧
    c1Construct.watcher.deps = [0] ∧
    c1Construct.world = [⟨0, [1]⟩] ∧
    c1Construct.watcher.newDeps = [] ∧
    c1Construct.watcher.newDepIds = SimpleSetVal.setHelperObject ∧
    SimpleSetVal.has c1Construct.watcher.newDepIds 0 =
      Except.error JsErr.typeError ∧
    c1SecondGet.thrown = some JsErr.typeError ∧
    c1SecondGet.watcher.newDeps = [] := by
  decide

/-! ## `componentVNodeHooks.insert` (`src/unnamed/part_003`)

```js
insert (vnode) {
  const { context, componentInstance } = vnode
  if (!componentInstance._isMounted) {
    componentInstance._isMounted = true
    callHook(componentInstance, 'mounted')
  }
  if (vnode.data.keepAlive) {
    if (context._isMounted) {
      queueActivatedComponent(componentInstance)
    } else {
      activateChildComponent(componentInstance, true /* direct */)
    }
  }
}
```
-/

/-- The inputs `insert` inspects: the component instance's own
`_isMounted`, the owning context's `_isMounted`, and
`vnode.data.keepAlive`. -/
structure InsertVNode where
  instanceMounted : Bool
  contextMounted : Bool
  keepAlive : Bool
  deriving DecidableEq, Repr

/-- The observable calls `insert` can make: the `mounted` lifecycle
hook, `queueActivatedComponent` (deferral to end-of-patch), or
`activateChildComponent(instance, true)` (direct, recursive
activation). -/
inductive InsAction where
  | callMountedHook
  | queueActivated
  | activateDirect
  deriving DecidableEq, Repr

/-- `componentVNodeHooks.insert`: the ordered list of calls made, and
the instance's `_isMounted` flag afterwards. -/
def componentVNodeHooks.insert (v : InsertVNode) : List InsAction × Bool :=
  let first : List InsAction :=
    if v.instanceMounted then [] else [.callMountedHook]
  let second : List InsAction :=
    if v.keepAlive then
      if v.contextMounted then [.queueActivated] else [.activateDirect]
    else []
  (first ++ second, true)

/-- C3 counterexample: for a kept-alive component whose owning context
is *not yet mounted* (parent tree still mounting), the claim says the
activated lifecycle is deferred via the activated-component queue — but
the code takes the `else` branch and invokes
`activateChildComponent` directly; no enqueue happens. -/
theorem C3_counterexample_still_mounting_activates_directly :
    (componentVNodeHooks.insert ⟨true, false, true⟩).1 = [InsAction.activateDirect] ∧
    InsAction.queueActivated ∉ (componentVNodeHooks.insert ⟨true, false, true⟩).1 := by
  decide

/-- C3 (amended): when the insert hook runs for a kept-alive component
whose owning context *has already mounted* (i.e. during an update
patch), activation is deferred to end-of-patch by enqueuing the
instance into the activated-component queue; when the owning context is
still mounting, the activated lifecycle is invoked directly
(recursively) instead. -/
theorem C3_insert_keepalive_activation (v : InsertVNode)
    (hk : v.keepAlive = true) :
    (v.contextMounted = true →
      InsAction.queueActivated ∈ (componentVNodeHooks.insert v).1 ∧
      InsAction.activateDirect ∉ (componentVNodeHooks.insert v).1) ∧
    (v.contextMounted = false →
      InsAction.activateDirect ∈ (componentVNodeHooks.insert v).1 ∧
      InsAction.queueActivated ∉ (componentVNodeHooks.insert v).1) := by
  cases v with
  | mk im cm ka =>
    subst hk
    cases im <;> cases cm <;> simp [componentVNodeHooks.insert]

/-- Witness for C3 (amended) at concrete inputs: mounted context →
enqueued; still-mounting context → direct activation. -/
theorem C3_insert_keepalive_activation_witness :
    InsAction.queueActivated ∈ (componentVNodeHooks.insert ⟨true, true, true⟩).1 ∧
    InsAction.activateDirect ∈ (componentVNodeHooks.insert ⟨true, false, true⟩).1 :=
  ⟨((C3_insert_keepalive_activation ⟨true, true, true⟩ rfl).1 rfl).1,
   ((C3_insert_keepalive_activation ⟨true, false, true⟩ rfl).2 rfl).1⟩

/-! ## transition-group `render`
(`src/platforms/web/runtime/components/transition-group.js`)

The child-filtering loop:

```js
for (let i = 0; i < rawChildren.length; i++) {
  const c = rawChildren[i]
  if (c.tag) {
    if (c.key != null && String(c.key).indexOf('__vlist') !== 0) {
      children.push(c)
      map[c.key] = c
      ;(c.data || (c.data = {})).transition = transitionData
    } else if (process.env.NODE_ENV !== 'production') {
      warn(`<transition-group> children must be keyed: <${name}>`)
    }
  }
}
```
-/

/-- A JS vnode key: a string or a number (`null`/`undefined` is the
surrounding `Option`).  `String(key)` stringifies a numeric key. -/
inductive JsKey where
  | str (s : String)
  | num (n : Nat)
  deriving DecidableEq, Repr

/-- `String(key)`. -/
def JsKey.keyString : JsKey → String
  | .str s => s
  | .num n => toString n

/-- `String(c.key).indexOf('__vlist') === 0`: the stringified key starts
with `__vlist` (compared on the first seven characters). -/
def startsWithVlist (s : String) : Bool :=
  s.data.take 7 = "__vlist".data

/-- The slice of a VNode that the transition-group render loop reads and
writes: `tag` (`none` for text/comment nodes), `key`, and the
`data.transition` slot (transition data identified by a numeric id;
`none` = absent). -/
structure GVNode where
  tag : Option String
  key : Option JsKey
  transition : Option Nat
  deriving DecidableEq, Repr

/-- JS truthiness of `c.tag` (`undefined` and the empty string are
falsy). -/
def tagTruthy : Option String → Bool
  | none => false
  | some t => t ≠ ""

/-- `c.key != null && String(c.key).indexOf('__vlist') !== 0`. -/
def keyKept : Option JsKey → Bool
  | none => false
  | some k => !startsWithVlist k.keyString

/-- An element child that passes the key check and is pushed into
`children`. -/
def keptChild (c : GVNode) : Bool :=
  tagTruthy c.tag && keyKept c.key

/-- An element child failing the key check (null/undefined key or a
`__vlist`-prefixed stringified key): skipped, warned about in dev. -/
def badKeyElementChild (c : GVNode) : Bool :=
  tagTruthy c.tag && !keyKept c.key

/-- Processing of one raw child by the loop body, pushing onto the
accumulated (`children`, warn-count) pair. -/
def processChild (dev : Bool) (td : Nat) (acc : List GVNode × Nat)
    (c : GVNode) : List GVNode × Nat :=
  if tagTruthy c.tag then
    if keyKept c.key then
      (acc.1 ++ [{ c with transition := some td }], acc.2)
    else
      (acc.1, acc.2 + (if dev then 1 else 0))
  else acc

/-- The whole child-filtering loop of transition-group's `render`:
returns the `children` array and the number of `warn` calls.  `td` is
the transition data extracted from the component
(`extractTransitionData(this)`), stored on each kept child's
`data.transition`. -/
def transitionGroupRenderChildren (dev : Bool) (td : Nat)
    (rawChildren : List GVNode) : List GVNode × Nat :=
  rawChildren.foldl (processChild dev td) ([], 0)

/-- Characterisation of the loop for an arbitrary starting
accumulator. -/
theorem transitionGroupRenderChildren_loop (dev : Bool) (td : Nat) :
    ∀ (raw : List GVNode) (acc : List GVNode × Nat),
      raw.foldl (processChild dev td) acc =
        (acc.1 ++ (raw.filter keptChild).map
            (fun c => { c with transition := some td }),
         acc.2 + (if dev then raw.countP (fun c => badKeyElementChild c) else 0)) := by
  intro raw
  induction raw with
  | nil => intro acc; simp
  | cons c rest ih =>
    intro acc
    by_cases h1 : tagTruthy c.tag
    · by_cases h2 : keyKept c.key
      · simp [processChild, keptChild, badKeyElementChild, h1, h2, ih,
          List.filter_cons, List.countP_cons]
      · simp [processChild, keptChild, badKeyElementChild, h1, h2, ih,
          List.filter_cons, List.countP_cons]
        cases dev <;> simp +arith
    · simp [processChild, keptChild, badKeyElementChild, h1, ih,
        List.filter_cons, List.countP_cons]

/-- Every child in the `children` array produced by the loop carries
the transition data and satisfies the element/key checks. -/
theorem tg_mem_kept (dev : Bool) (td : Nat) (raw : List GVNode) (c : GVNode)
    (hc : c ∈ (transitionGroupRenderChildren dev td raw).1) :
    c.transition = some td ∧ tagTruthy c.tag = true ∧ keyKept c.key = true := by
  have hmain := transitionGroupRenderChildren_loop dev td raw ([], 0)
  unfold transitionGroupRenderChildren at hc
  rw [hmain] at hc
  simp only [List.nil_append] at hc
  rcases List.mem_map.mp hc with ⟨c0, hc0, hback⟩
  have hkept : keptChild c0 = true := List.of_mem_filter hc0
  simp only [keptChild, Bool.and_eq_true] at hkept
  cases hback
  exact ⟨rfl, hkept.1, hkept.2⟩

/-- C10: in transition-group's render loop, an element child whose key
is null/undefined or whose stringified key starts with `__vlist` is
excluded from the rendered children entirely (neither the child nor a
transition-annotated copy of it appears in the output) — only a
development-mode warning is emitted (one per such child, none in
production); the children kept are exactly the element children passing
the key check, in order, each with the extracted transition data
written to its `data.transition`. -/
theorem C10_transition_group_child_filter (dev : Bool) (td : Nat)
    (rawChildren : List GVNode) :
    (transitionGroupRenderChildren dev td rawChildren).1 =
      (rawChildren.filter keptChild).map
        (fun c => { c with transition := some td }) ∧
    (∀ c ∈ (transitionGroupRenderChildren dev td rawChildren).1,
      c.transition = some td) ∧
    (∀ c ∈ rawChildren, badKeyElementChild c = true →
      { c with transition := some td } ∉
        (transitionGroupRenderChildren dev td rawChildren).1 ∧
      c ∉ (transitionGroupRenderChildren dev td rawChildren).1) ∧
    (transitionGroupRenderChildren dev td rawChildren).2 =
      (if dev then rawChildren.countP (fun c => badKeyElementChild c) else 0) := by
  have hmain := transitionGroupRenderChildren_loop dev td rawChildren ([], 0)
  refine ⟨?_, ?_, ?_, ?_⟩
  · unfold transitionGroupRenderChildren
    rw [hmain]
    simp
  · intro c hc
    exact (tg_mem_kept dev td rawChildren c hc).1
  · intro c _ hbad
    simp only [badKeyElementChild, Bool.and_eq_true, Bool.not_eq_true'] at hbad
    constructor
    · intro hmem
      have h : keyKept c.key = true :=
        (tg_mem_kept dev td rawChildren _ hmem).2.2
      rw [hbad.2] at h
      exact Bool.noConfusion h
    · intro hmem
      have h : keyKept c.key = true :=
        (tg_mem_kept dev td rawChildren c hmem).2.2
      rw [hbad.2] at h
      exact Bool.noConfusion h
  · unfold transitionGroupRenderChildren
    rw [hmain]
    simp

/-- Concrete raw child list for the C10 witness: a keyed element, an
unkeyed element, a `__vlist`-keyed element, and a text node. -/
def c10Raw : List GVNode :=
  [{ tag := some "li", key := some (.str "a"), transition := none },
   { tag := some "li", key := none, transition := none },
   { tag := some "li", key := some (.str "__vlist1_0"), transition := none },
   { tag := none, key := none, transition := none }]

/-- Witness for C10 on `c10Raw` in a dev build: two warnings (the
unkeyed and the `__vlist`-keyed element), and the kept keyed child
carries the transition data. -/
theorem C10_transition_group_child_filter_witness :
    (transitionGroupRenderChildren true 5 c10Raw).2 = 2 ∧
    ({ tag := some "li", key := some (.str "a"), transition := some 5 } :
      GVNode).transition = some 5 := by
  constructor
  · rw [(C10_transition_group_child_filter true 5 c10Raw).2.2.2]
    decide
  · exact (C10_transition_group_child_filter true 5 c10Raw).2.1
      { tag := some "li", key := some (.str "a"), transition := some 5 }
      (by decide)

/-! ## Transition controller `enter` / `leave` (`src/unnamed/part_000`)

`enter(vnode)` begins with

```js
if (isDef(el._leaveCb)) { el._leaveCb.cancelled = true; el._leaveCb() }
```

and `leave(vnode, rm)` symmetrically cancels a pending `el._enterCb`.
A completion callback is a `once`-wrapped closure stored on the element
(`el._enterCb` / `el._leaveCb`); invoking it runs the after-hook
(plus, for leave, `rm()`) when not cancelled, or the cancelled-hook
when cancelled, and nulls its slot.

The model tracks the two callback slots on the element and the ordered
log of observable calls made synchronously by one `enter`/`leave`
invocation.  Pieces deferred past the synchronous call — the merged
`insert` hook, `nextFrame` bodies, `setTimeout`/`whenTransitionEnds`
completions, and a `delayLeave`-gated `performLeave` — are not part of
that log; CSS class adds/removes and the per-parent pending-leave table
are not modelled (no claim touches them).  A hook in the log means the
corresponding `hook && hook(el)` call site was reached. -/

/-- Observable calls of the transition controller. -/
inductive THook where
  | beforeEnterH
  | enterH
  | afterEnterH
  | enterCancelledH
  | beforeLeaveH
  | leaveH
  | afterLeaveH
  | leaveCancelledH
  | rmCall
  | toggleDisplayCall
  deriving DecidableEq, Repr

/-- The per-element callback slots: `some c` is a pending callback whose
`cancelled` flag is `c`. -/
structure TransElem where
  enterCb : Option Bool
  leaveCb : Option Bool
  deriving DecidableEq, Repr, Fintype

/-- The configuration `enter` resolves from the vnode's transition
data: whether `resolveTransition` yielded data at all, whether the node
is an element (`el.nodeType === 1`), whether the appear-check bails out
(`isAppear && !appear && appear !== ''`), `vnode.data.show`,
`expectsCSS` (`css !== false && !isIE9`), and `userWantsControl`
(`getHookArgumentsLength(enterHook)`). -/
structure EnterCfg where
  hasData : Bool
  isElement : Bool
  appearBlocked : Bool
  dataShow : Bool
  expectsCSS : Bool
  userWantsControl : Bool
  deriving DecidableEq, Repr, Fintype

/-- The configuration `leave` resolves: as for `enter`, plus whether a
`delayLeave` gate was supplied (deferring `performLeave`). -/
structure LeaveCfg where
  hasData : Bool
  isElement : Bool
  delayLeave : Bool
  expectsCSS : Bool
  userWantsControl : Bool
  deriving DecidableEq, Repr, Fintype

/-- The synchronous part of `enter(vnode, toggleDisplay)`:

1. a pending `_leaveCb` is marked cancelled and invoked (its cancelled
   branch runs the leave-cancelled hook and nulls the slot);
2. `resolveTransition` undefined → return;
3. `isDef(el._enterCb) || el.nodeType !== 1` → return;
4. the appear check may return;
5. `cb = el._enterCb = once(...)` is installed;
6. `beforeEnterHook(el)` runs; CSS class work and the frame-deferred
   step are scheduled (not synchronous);
7. with `vnode.data.show`, `toggleDisplay()` and `enterHook(el, cb)`
   run;
8. `if (!expectsCSS && !userWantsControl) cb()` — the callback fires
   immediately, un-cancelled: after-enter hook, slot nulled. -/
def enter (cfg : EnterCfg) (el : TransElem) : TransElem × List THook :=
  let cancelLog : List THook :=
    match el.leaveCb with
    | some _ => [.leaveCancelledH]
    | none => []
  let el1 : TransElem := { el with leaveCb := none }
  if ¬cfg.hasData then (el1, cancelLog)
  else if el1.enterCb.isSome ∨ ¬cfg.isElement then (el1, cancelLog)
  else if cfg.appearBlocked then (el1, cancelLog)
  else
    let el2 : TransElem := { el1 with enterCb := some false }
    let log2 := cancelLog ++ [.beforeEnterH]
    let log3 := log2 ++ (if cfg.dataShow then [.toggleDisplayCall, .enterH] else [])
    if ¬cfg.expectsCSS ∧ ¬cfg.userWantsControl then
      ({ el2 with enterCb := none }, log3 ++ [.afterEnterH])
    else (el2, log3)

/-- The synchronous part of `leave(vnode, rm)`:

1. a pending `_enterCb` is marked cancelled and invoked (its cancelled
   branch runs the enter-cancelled hook — not the after-enter hook —
   and nulls the slot);
2. `resolveTransition` undefined or non-element node → `return rm()`;
3. `isDef(el._leaveCb)` → return;
4. `cb = el._leaveCb = once(...)` is installed;
5. with a `delayLeave` gate, `performLeave` is deferred; otherwise it
   runs now: before-leave hook, CSS work scheduled, `leave(el, cb)`
   hook, and `if (!expectsCSS && !userWantsControl) cb()` — the
   un-cancelled callback runs `rm()` then the after-leave hook and
   nulls the slot. -/
def leave (cfg : LeaveCfg) (el : TransElem) : TransElem × List THook :=
  let cancelLog : List THook :=
    match el.enterCb with
    | some _ => [.enterCancelledH]
    | none => []
  let el1 : TransElem := { el with enterCb := none }
  if ¬cfg.hasData ∨ ¬cfg.isElement then (el1, cancelLog ++ [.rmCall])
  else if el1.leaveCb.isSome then (el1, cancelLog)
  else
    let el2 : TransElem := { el1 with leaveCb := some false }
    if cfg.delayLeave then (el2, cancelLog)
    else
      let log2 := cancelLog ++ [.beforeLeaveH, .leaveH]
      if ¬cfg.expectsCSS ∧ ¬cfg.userWantsControl then
        ({ el2 with leaveCb := none }, log2 ++ [.rmCall, .afterLeaveH])
      else (el2, log2)

/-- At most one of the two completion callbacks is pending. -/
def atMostOnePending (el : TransElem) : Prop :=
  el.enterCb = none ∨ el.leaveCb = none

instance (el : TransElem) : Decidable (atMostOnePending el) := by
  unfold atMostOnePending
  infer_instance

/-- C5: on any element, `enter` and `leave` leave at most one of the
enter/leave completion callbacks pending (each begins by forcibly
completing the opposite pending callback); calling `leave` while an
enter callback is pending first marks it cancelled and invokes it —
the enter-cancelled hook is the first observable call and the
after-enter hook never runs during that `leave` — and symmetrically,
calling `enter` while a leave callback is pending cancels and invokes
that leave callback first. -/
theorem C5_cross_cancellation (cfgE : EnterCfg) (cfgL : LeaveCfg)
    (el : TransElem) :
    atMostOnePending (enter cfgE el).1 ∧
    atMostOnePending (leave cfgL el).1 ∧
    (el.enterCb.isSome = true →
      ((leave cfgL el).2.head? = some THook.enterCancelledH ∧
       THook.afterEnterH ∉ (leave cfgL el).2)) ∧
    (el.leaveCb.isSome = true →
      ((enter cfgE el).2.head? = some THook.leaveCancelledH ∧
       THook.afterLeaveH ∉ (enter cfgE el).2)) := by
  revert cfgE cfgL el
  decide

/-- Witness for C5 at concrete inputs: an element with a pending enter
callback handed to `leave`, and one with a pending leave callback
handed to `enter` (CSS-driven config, no data-show, no delay gate). -/
theorem C5_cross_cancellation_witness :
    ((leave ⟨true, true, false, true, false⟩ ⟨some false, none⟩).2.head? =
      some THook.enterCancelledH ∧
     THook.afterEnterH ∉ (leave ⟨true, true, false, true, false⟩
       ⟨some false, none⟩).2) ∧
    ((enter ⟨true, true, false, false, true, false⟩ ⟨none, some false⟩).2.head? =
      some THook.leaveCancelledH ∧
     THook.afterLeaveH ∉ (enter ⟨true, true, false, false, true, false⟩
       ⟨none, some false⟩).2) :=
  ⟨(C5_cross_cancellation ⟨true, true, false, false, true, false⟩
      ⟨true, true, false, true, false⟩ ⟨some false, none⟩).2.2.1 rfl,
   (C5_cross_cancellation ⟨true, true, false, false, true, false⟩
      ⟨true, true, false, true, false⟩ ⟨none, some false⟩).2.2.2 rfl⟩

/-! ## Async component resolver (`src/unnamed/part_002`)

`resolveAsyncComponent(factory, baseCtor)` keeps its bookkeeping on the
factory function object itself (`factory.resolved`, `factory.error`,
`factory.errorComp`, `factory.loading`, `factory.loadingComp`,
`factory.owners`).  Components and owner instances are modelled by
numeric ids; `ensureCtor` (which unwraps ES modules and runs
`baseCtor.extend`, an external collaborator) is identity on component
ids.  The factory's own behaviour when invoked is a parameter: a plain
factory that calls `resolve(res)` synchronously and returns a
non-object, or a promise-returning factory whose settlement arrives
later (`res.then(resolve, reject)` merely registers the once-wrapped
callbacks).  The advanced-object branch (loading/error components,
`delay`/`timeout` timers) sets state the claims do not exercise; the
timers are carried as flags so that `forceRender(true)`'s clearing of
them is represented. -/

/-- The resolution bookkeeping stored on the factory function object. -/
structure FactoryState where
  resolved : Option Nat
  error : Bool
  errorComp : Option Nat
  loading : Bool
  loadingComp : Option Nat
  owners : Option (List Nat)
  deriving DecidableEq, Repr

/-- The full resolver state: the factory object, the number of times the
factory function has been invoked, the log of `$forceUpdate()` calls
(owner ids, in call order), the once-flag of the `resolve` closure, the
closure-captured `sync` flag, and the two pending-timer flags. -/
structure AsyncEnv where
  factory : FactoryState
  factoryCalls : Nat
  forceUpdates : List Nat
  resolveFired : Bool
  sync : Bool
  timerLoading : Bool
  timerTimeout : Bool
  deriving DecidableEq, Repr

/-- A fresh factory: nothing resolved, no owners list, no calls yet. -/
def initAsyncEnv : AsyncEnv :=
  { factory := { resolved := none, error := false, errorComp := none,
                 loading := false, loadingComp := none, owners := none },
    factoryCalls := 0, forceUpdates := [], resolveFired := false,
    sync := false, timerLoading := false, timerTimeout := false }

/-- `forceRender(renderCompleted)`: `$forceUpdate()` every owner in
order; when `renderCompleted`, empty the owners array in place
(`owners.length = 0`) and clear both timers. -/
def forceRender (renderCompleted : Bool) (env : AsyncEnv) : AsyncEnv :=
  let env1 := { env with
    forceUpdates := env.forceUpdates ++ env.factory.owners.getD [] }
  if renderCompleted then
    { env1 with factory := { env1.factory with owners := some [] },
                timerLoading := false, timerTimeout := false }
  else env1

/-- The `once`-wrapped `resolve(res)` callback:

```js
const resolve = once((res) => {
  factory.resolved = ensureCtor(res, baseCtor)
  if (!sync) { forceRender(true) } else { owners.length = 0 }
})
```
-/
def resolveCb (res : Nat) (env : AsyncEnv) : AsyncEnv :=
  if env.resolveFired then env
  else
    let env1 := { env with resolveFired := true,
                           factory := { env.factory with resolved := some res } }
    if env1.sync then
      { env1 with factory := { env1.factory with owners := some [] } }
    else forceRender true env1

/-- How the factory function behaves when `resolveAsyncComponent`
invokes it (`const res = factory(resolve, reject)`). -/
inductive FactoryBehavior where
  | syncResolve (res : Nat)
  | pend
  deriving DecidableEq, Repr

/-- `resolveAsyncComponent(factory, baseCtor)` with
`currentRenderingInstance = owner`: returns the component returned to
the caller (`none` = `undefined`, yielding a placeholder vnode) and the
updated state.

```js
if (isTrue(factory.error) && isDef(factory.errorComp)) return factory.errorComp
if (isDef(factory.resolved)) return factory.resolved
const owner = currentRenderingInstance
if (owner && isDef(factory.owners) && factory.owners.indexOf(owner) === -1) {
  factory.owners.push(owner)
}
if (isTrue(factory.loading) && isDef(factory.loadingComp)) return factory.loadingComp
if (owner && !isDef(factory.owners)) {
  const owners = factory.owners = [owner]
  let sync = true
  ...
  const res = factory(resolve, reject)
  ...
  sync = false
  return factory.loading ? factory.loadingComp : factory.resolved
}
```
-/
def resolveAsyncComponent (fb : FactoryBehavior) (owner : Option Nat)
    (env : AsyncEnv) : Option Nat × AsyncEnv :=
  if env.factory.error = true ∧ env.factory.errorComp.isSome = true then
    (env.factory.errorComp, env)
  else if env.factory.resolved.isSome = true then
    (env.factory.resolved, env)
  else
    let env1 :=
      match owner, env.factory.owners with
      | some o, some os =>
        if o ∈ os then env
        else { env with factory := { env.factory with owners := some (os ++ [o]) } }
      | _, _ => env
    if env1.factory.loading = true ∧ env1.factory.loadingComp.isSome = true then
      (env1.factory.loadingComp, env1)
    else
      match owner, env1.factory.owners with
      | some o, none =>
        let env2 := { env1 with
          factory := { env1.factory with owners := some [o] },
          sync := true, resolveFired := false,
          factoryCalls := env1.factoryCalls + 1 }
        let env3 :=
          match fb with
          | .syncResolve res => resolveCb res env2
          | .pend => env2
        let env4 := { env3 with sync := false }
        ((if env4.factory.loading then env4.factory.loadingComp
          else env4.factory.resolved), env4)
      | _, _ => (none, env1)

/-- A later settlement of the pending promise delivering `res` to the
once-wrapped `resolve` (the initiating call has finished, `sync` is
`false` by then). -/
def resolveLater (res : Nat) (env : AsyncEnv) : AsyncEnv :=
  resolveCb res env

/-- One concurrent request against a pending promise factory (only the
state change; such a call returns `undefined`). -/
def pendingStep (env : AsyncEnv) (o : Nat) : AsyncEnv :=
  (resolveAsyncComponent .pend (some o) env).2

/-- `owners.push(o)` guarded by the `indexOf === -1` dedup check. -/
def pushOwner (os : List Nat) (o : Nat) : List Nat :=
  if o ∈ os then os else os ++ [o]

/-- The owners accumulated by a sequence of deduped pushes. -/
def pushOwners (os : List Nat) (incoming : List Nat) : List Nat :=
  incoming.foldl pushOwner os

theorem mem_pushOwner (os : List Nat) (o x : Nat) :
    x ∈ pushOwner os o ↔ x ∈ os ∨ x = o := by
  unfold pushOwner
  by_cases h : o ∈ os
  · rw [if_pos h]
    constructor
    · exact .inl
    · rintro (hx | rfl)
      · exact hx
      · exact h
  · rw [if_neg h]
    simp

theorem nodup_pushOwner (os : List Nat) (o : Nat) (h : os.Nodup) :
    (pushOwner os o).Nodup := by
  unfold pushOwner
  by_cases hc : o ∈ os
  · rwa [if_pos hc]
  · rw [if_neg hc]
    refine List.Nodup.append h (List.nodup_singleton o) ?_
    intro x hx hx1
    rcases List.mem_singleton.mp hx1 with rfl
    exact hc hx

theorem mem_pushOwners (incoming : List Nat) :
    ∀ (os : List Nat) (x : Nat),
      x ∈ pushOwners os incoming ↔ x ∈ os ∨ x ∈ incoming := by
  induction incoming with
  | nil => intro os x; simp [pushOwners]
  | cons o rest ih =>
    intro os x
    unfold pushOwners
    rw [List.foldl_cons]
    have h2 := ih (pushOwner os o) x
    unfold pushOwners at h2
    rw [h2, mem_pushOwner]
    simp only [List.mem_cons]
    tauto

theorem nodup_pushOwners (incoming : List Nat) :
    ∀ (os : List Nat), os.Nodup → (pushOwners os incoming).Nodup := by
  induction incoming with
  | nil => intro os h; simpa [pushOwners] using h
  | cons o rest ih =>
    intro os h
    unfold pushOwners
    rw [List.foldl_cons]
    exact ih (pushOwner os o) (nodup_pushOwner os o h)

/-- A concurrent request while the promise factory is pending (not
errored, not resolved, not loading, owners list present) only
dedup-pushes the requester into the owners list. -/
theorem pendingStep_eq (env : AsyncEnv) (o : Nat) (L : List Nat)
    (he : env.factory.error = false) (hr : env.factory.resolved = none)
    (hl : env.factory.loading = false) (ho : env.factory.owners = some L) :
    pendingStep env o =
      { env with factory := { env.factory with owners := some (pushOwner L o) } } := by
  obtain ⟨f, fc, fu, rf, sy, tl, tt⟩ := env
  obtain ⟨r, er, ec, lo, lc, ow⟩ := f
  simp only at he hr hl ho
  subst he
  subst hr
  subst hl
  subst ho
  unfold pendingStep resolveAsyncComponent pushOwner
  by_cases hc : o ∈ L
  · simp [hc]
  · simp [hc]

/-- Writing back the owners list a factory already has is the identity. -/
theorem setOwners_self (env : AsyncEnv) (L : List Nat)
    (ho : env.factory.owners = some L) :
    { env with factory := { env.factory with owners := some L } } = env := by
  obtain ⟨f, fc, fu, rf, sy, tl, tt⟩ := env
  obtain ⟨r, er, ec, lo, lc, ow⟩ := f
  simp only at ho
  subst ho
  rfl

/-- A whole sequence of concurrent requests against a pending promise
factory dedup-accumulates the requesters and changes nothing else. -/
theorem pending_foldl (os : List Nat) :
    ∀ (env : AsyncEnv) (L : List Nat),
      env.factory.error = false → env.factory.resolved = none →
      env.factory.loading = false → env.factory.owners = some L →
      os.foldl pendingStep env =
        { env with factory := { env.factory with owners := some (pushOwners L os) } } := by
  induction os with
  | nil =>
    intro env L he hr hl ho
    simp only [List.foldl_nil, pushOwners, List.foldl_nil]
    exact (setOwners_self env L ho).symm
  | cons o rest ih =>
    intro env L he hr hl ho
    rw [List.foldl_cons, pendingStep_eq env o L he hr hl ho]
    rw [ih { env with factory := { env.factory with owners := some (pushOwner L o) } }
      (pushOwner L o) he hr hl rfl]
    rfl

/-- The state after the first request against a fresh pending-promise
factory: the requester becomes the sole recorded owner and the factory
has been invoked once. -/
theorem firstPending_eq (o0 : Nat) :
    pendingStep initAsyncEnv o0 =
      { factory := { resolved := none, error := false, errorComp := none,
                     loading := false, loadingComp := none, owners := some [o0] },
        factoryCalls := 1, forceUpdates := [], resolveFired := false,
        sync := false, timerLoading := false, timerTimeout := false } := by
  rfl

/-- C2: single-flight — starting from a fresh factory, a first request
by owner `o0` and then any sequence `os` of further requests while the
promise factory is pending invoke the factory exactly once; the owners
list records each distinct requester at most once (no duplicates, and
its members are exactly `o0` and the members of `os`); when the
resolution arrives, every recorded owner receives exactly one forced
re-render; and invoking the once-wrapped resolve callback a second time
has no effect at all. -/
theorem C2_single_flight (o0 : Nat) (os : List Nat) (res res2 : Nat) :
    (os.foldl pendingStep (pendingStep initAsyncEnv o0)).factoryCalls = 1 ∧
    (os.foldl pendingStep (pendingStep initAsyncEnv o0)).factory.owners =
      some (pushOwners [o0] os) ∧
    (pushOwners [o0] os).Nodup ∧
    (∀ x, x ∈ pushOwners [o0] os ↔ x = o0 ∨ x ∈ os) ∧
    (resolveLater res
        (os.foldl pendingStep (pendingStep initAsyncEnv o0))).forceUpdates =
      pushOwners [o0] os ∧
    (∀ x ∈ pushOwners [o0] os,
      (resolveLater res
          (os.foldl pendingStep (pendingStep initAsyncEnv o0))).forceUpdates.count x
        = 1) ∧
    resolveLater res2 (resolveLater res
        (os.foldl pendingStep (pendingStep initAsyncEnv o0))) =
      resolveLater res (os.foldl pendingStep (pendingStep initAsyncEnv o0)) := by
  rw [firstPending_eq o0]
  rw [pending_foldl os _ [o0] rfl rfl rfl rfl]
  have hnodup : (pushOwners [o0] os).Nodup :=
    nodup_pushOwners os [o0] (List.nodup_singleton o0)
  have hresolve :
      resolveLater res
        { factory := { resolved := none, error := false, errorComp := none,
                       loading := false, loadingComp := none,
                       owners := some (pushOwners [o0] os) },
          factoryCalls := 1, forceUpdates := [], resolveFired := false,
          sync := false, timerLoading := false, timerTimeout := false } =
        { factory := { resolved := some res, error := false, errorComp := none,
                       loading := false, loadingComp := none,
                       owners := some [] },
          factoryCalls := 1, forceUpdates := pushOwners [o0] os,
          resolveFired := true, sync := false, timerLoading := false,
          timerTimeout := false } := by
    simp [resolveLater, resolveCb, forceRender]
  refine ⟨rfl, rfl, hnodup, ?_, ?_, ?_, ?_⟩
  · intro x
    rw [mem_pushOwners os [o0] x]
    simp
  · rw [hresolve]
  · intro x hx
    rw [hresolve]
    exact List.count_eq_one_of_mem hnodup hx
  · rw [hresolve]
    simp [resolveLater, resolveCb]

/-- Witness for C2 at a concrete run: first requester 1, then
requesters 2, 1, 3 while pending; the factory is invoked once, the
owners dedupe to `[1, 2, 3]`, and owner 2 gets exactly one forced
re-render on resolution. -/
theorem C2_single_flight_witness :
    ([2, 1, 3].foldl pendingStep (pendingStep initAsyncEnv 1)).factoryCalls = 1 ∧
    (resolveLater 10
        ([2, 1, 3].foldl pendingStep (pendingStep initAsyncEnv 1))).forceUpdates =
      [1, 2, 3] ∧
    (resolveLater 10
        ([2, 1, 3].foldl pendingStep (pendingStep initAsyncEnv 1))).forceUpdates.count 2
      = 1 :=
  ⟨(C2_single_flight 1 [2, 1, 3] 10 11).1,
   by rw [(C2_single_flight 1 [2, 1, 3] 10 11).2.2.2.2.1]; decide,
   (C2_single_flight 1 [2, 1, 3] 10 11).2.2.2.2.2.1 2 (by decide)⟩

/-- C6: synchronous vs asynchronous resolution — when the factory calls
`resolve` during the very `resolveAsyncComponent` call that invoked it
(before `sync` is cleared), no forced re-render happens at all: the
resolved constructor is cached on `factory.resolved` and returned from
the initiating call, and the owners list is emptied; whereas a
resolution arriving after the initiating call (promise settlement)
forces one re-render per remaining recorded owner. -/
theorem C6_sync_resolution_no_force_render (o0 res res2 : Nat)
    (os : List Nat) :
    (resolveAsyncComponent (.syncResolve res) (some o0) initAsyncEnv).1 =
      some res ∧
    (resolveAsyncComponent (.syncResolve res) (some o0) initAsyncEnv).2.forceUpdates
      = [] ∧
    (resolveAsyncComponent (.syncResolve res) (some o0)
        initAsyncEnv).2.factory.resolved = some res ∧
    (resolveAsyncComponent (.syncResolve res) (some o0)
        initAsyncEnv).2.factory.owners = some [] ∧
    (resolveLater res2
        (os.foldl pendingStep (pendingStep initAsyncEnv o0))).forceUpdates =
      (os.foldl pendingStep (pendingStep initAsyncEnv o0)).factory.owners.getD []
      := by
  refine ⟨rfl, rfl, rfl, rfl, ?_⟩
  rw [firstPending_eq o0]
  rw [pending_foldl os _ [o0] rfl rfl rfl rfl]
  simp [resolveLater, resolveCb, forceRender]

end VueReading
